import Mathlib

/-!
Verification of the helldiver episode-commit protocol.

Shallow embedding of `src/graph/client.py` (retry_with_backoff, GraphClient:
_ensure_connection, _reconnect, commit_research_episode), of
`src/utils/files.py` (distill_conversation, convert_tasking_to_conversation)
and of `src/core/research_cycle.py` (run_research_cycle).

External effects are modelled by an explicit environment `Env`:
the graph backend's driver presence, connectivity verification, the
Graphiti constructor used during reconnection, the index build, and the
per-episode `add_episode` outcome (indexed by episode name and attempt
number, since a retried write may behave differently per attempt).
Python exceptions escaping a call are modelled by `Except.error`;
a returned dict is `Except.ok`.  Optional dict keys are `Option` fields.
The observable behaviour of a commit call (index builds, write attempts,
backoff sleeps) is recorded in an event trace.
-/

namespace Helldiver

/-- Substring test on character lists: `hasSubList needle hay` is true iff
`needle` occurs contiguously inside `hay`. -/
def hasSubList (needle : List Char) : List Char → Bool
  | [] => needle.isEmpty
  | c :: rest => needle.isPrefixOf (c :: rest) || hasSubList needle rest

/-- Embeds the rate-limit test of `retry_with_backoff` in
`src/graph/client.py`: `"rate limit" in str(e).lower() or "429" in str(e).lower()`
(`.lower()` modelled per character). -/
def isRateLimitError (msg : String) : Bool :=
  hasSubList "rate limit".toList (msg.toList.map Char.toLower) ||
    hasSubList "429".toList (msg.toList.map Char.toLower)

/-- Outcome of one `retry_with_backoff` run: the final result, the number of
calls made to the wrapped function, and the sequence of backoff sleeps. -/
structure RetryOutcome where
  result : Except String Unit
  calls : Nat
  sleeps : List Nat
deriving Repr

/-- The retry loop body of `retry_with_backoff`: `attempt` is the Python loop
index, `delay` the current backoff delay, `sleeps` the sleeps so far; the
fuel is `max_retries + 1 - attempt`, the number of remaining loop iterations. -/
def retryGo (f : Nat → Except String Unit) (max_retries : Nat) :
    Nat → Nat → List Nat → Nat → RetryOutcome
  | attempt, _, sleeps, 0 =>
    { result := Except.error "", calls := attempt, sleeps := sleeps }
  | attempt, delay, sleeps, fuel + 1 =>
    match f attempt with
    | Except.ok u => { result := Except.ok u, calls := attempt + 1, sleeps := sleeps }
    | Except.error e =>
      if isRateLimitError e then
        if attempt < max_retries then
          retryGo f max_retries (attempt + 1) (delay * 2) (sleeps ++ [delay]) fuel
        else
          { result := Except.error e, calls := attempt + 1, sleeps := sleeps }
      else
        { result := Except.error e, calls := attempt + 1, sleeps := sleeps }

/-- Embeds `retry_with_backoff(func, max_retries=3, initial_delay=60)` of
`src/graph/client.py`.  The wrapped async callable is modelled as a function
from the attempt index to that attempt's outcome. -/
def retry_with_backoff (f : Nat → Except String Unit)
    (max_retries : Nat := 3) (initial_delay : Nat := 60) : RetryOutcome :=
  retryGo f max_retries 0 initial_delay [] (max_retries + 1)

/-- Environment: the behaviour of the external graph backend as seen by the
client. -/
structure Env where
  /-- `hasattr(self.graphiti, 'driver') and self.graphiti.driver is not None` -/
  hasDriver : Bool
  /-- whether `driver.verify_connectivity()` succeeds -/
  verifyOk : Bool
  /-- whether the `Graphiti(...)` constructor in `_reconnect` succeeds -/
  reconnectOk : Bool
  /-- outcome of `build_indices_and_constraints()` -/
  buildOutcome : Except String Unit
  /-- outcome of `add_episode` per episode name and per attempt index -/
  writeOutcome : String → Nat → Except String Unit

/-- The mutable state of `GraphClient`: whether `self.graphiti` is not `None`,
and the `_indexes_built` flag. -/
structure GraphClient where
  graphiti : Bool
  indexes_built : Bool
deriving Repr, DecidableEq

/-- Embeds `GraphClient._reconnect`: on constructor success the client holds a
fresh connection and `_indexes_built` is reset to `False`; on constructor
failure the exception is caught, `self.graphiti` is set to `None`, and —
because the reset line is skipped — `_indexes_built` keeps its old value. -/
def reconnect (env : Env) (c : GraphClient) : GraphClient :=
  if env.reconnectOk then { graphiti := true, indexes_built := false }
  else { graphiti := false, indexes_built := c.indexes_built }

/-- Embeds `GraphClient._ensure_connection`.  Returns the boolean result and
the client state afterwards.  Note the source returns `True` after calling
`_reconnect` without checking whether reconnection succeeded; the outer
`except` branch is unreachable because `_reconnect` catches its own
exceptions. -/
def ensure_connection (env : Env) (c : GraphClient) : Bool × GraphClient :=
  if !c.graphiti then (false, c)
  else if !env.hasDriver then (true, reconnect env c)
  else if env.verifyOk then (true, c)
  else (true, reconnect env c)

/-- Observable events of one commit call: an index build, one `add_episode`
attempt (episode name, attempt index), or a backoff sleep. -/
inductive Event where
  | build : Event
  | write : String → Nat → Event
  | sleep : Nat → Event
deriving Repr, DecidableEq

/-- Accumulator of the commit loop: `episodes_committed`, `errors`, and the
event trace. -/
structure CommitState where
  episodes_committed : List String
  errors : List String
  trace : List Event
deriving Repr, DecidableEq

/-- `str(e)` for the `AttributeError` raised when `self.graphiti` is `None`
and `add_episode` is accessed inside the per-episode lambda. -/
def noneTypeWriteError : String := "'NoneType' object has no attribute 'add_episode'"

/-- `str(e)` for the `AttributeError` raised when `self.graphiti` is `None`
and `build_indices_and_constraints` is accessed. -/
def noneTypeBuildError : String :=
  "'NoneType' object has no attribute 'build_indices_and_constraints'"

/-- The attempt function handed to `retry_with_backoff` for one episode:
if `self.graphiti` is `None` (`g = false`) every attempt raises the
`AttributeError`; otherwise the environment decides the outcome. -/
def episodeFunc (env : Env) (g : Bool) (ep : String) : Nat → Except String Unit :=
  fun attempt => if g then env.writeOutcome ep attempt else Except.error noneTypeWriteError

/-- Events of one episode's retried write: the write attempts followed by the
backoff sleeps that occurred during them. -/
def writeEvents (ep : String) (calls : Nat) (sleeps : List Nat) : List Event :=
  (List.range calls).map (Event.write ep) ++ sleeps.map Event.sleep

/-- One iteration of the commit loop for a non-empty artifact: run
`retry_with_backoff` on the episode's write; on success append the episode
name to `episodes_committed`, on failure append
`"Failed to commit {ep_name}: {e}"` to `errors`. -/
def commitOne (env : Env) (g : Bool) (ep_name : String) (st : CommitState) : CommitState :=
  let r := retry_with_backoff (episodeFunc env g ep_name)
  let st1 : CommitState := { st with trace := st.trace ++ writeEvents ep_name r.calls r.sleeps }
  match r.result with
  | Except.ok _ =>
    { st1 with episodes_committed := st1.episodes_committed ++ [ep_name] }
  | Except.error e =>
    { st1 with errors := st1.errors ++ ["Failed to commit " ++ ep_name ++ ": " ++ e] }

/-- The `worker_names` dict of `commit_research_episode`, in Python dict
insertion order. -/
def worker_names : List (String × String) :=
  [("academic_researcher", "Academic Research"),
   ("industry_intelligence", "Industry Intelligence"),
   ("tool_analyzer", "Tool Analysis")]

/-- The write phase of `commit_research_episode`: the three worker artifacts
in declared order (`worker_results.get(key, "")`, skipped when empty), then
the critique, then the refinement, each guarded by non-emptiness. -/
def commitWrites (env : Env) (g : Bool) (episode_name : String)
    (worker_results : String → Option String)
    (critical_analysis refinement_distilled : String) : CommitState :=
  let st0 : CommitState := { episodes_committed := [], errors := [], trace := [] }
  let st1 := worker_names.foldl
    (fun st kv =>
      let content := (worker_results kv.1).getD ""
      if content = "" then st
      else commitOne env g (episode_name ++ " - " ++ kv.2) st) st0
  let st2 := if critical_analysis = "" then st1
    else commitOne env g (episode_name ++ " - Critical Analysis") st1
  let st3 := if refinement_distilled = "" then st2
    else commitOne env g (episode_name ++ " - Refinement Context") st2
  st3

/-- The dict returned by `commit_research_episode`.  `Option` fields model
the presence of dict keys: the early "unavailable" return carries the
`error` key but no `episodes`/`errors` keys; the normal return carries
`episodes`/`errors` but no `error` key. -/
structure CommitResult where
  status : String
  error : Option String
  episode_count : Nat
  episodes : Option (List String)
  errors : Option (List String)
deriving Repr, DecidableEq

/-- The final dict of the normal return path of `commit_research_episode`:
`"success" if episodes_committed else "error"`, the count, the names, and
the per-artifact errors. -/
def commitResultOf (st : CommitState) : CommitResult :=
  { status := if st.episodes_committed = [] then "error" else "success",
    error := none,
    episode_count := st.episodes_committed.length,
    episodes := some st.episodes_committed,
    errors := some st.errors }

/-- Embeds `GraphClient.commit_research_episode`.  Returns the call outcome
(`Except.error` models a Python exception escaping the call), the client
state afterwards, and the event trace.  `session_name` and `group_id` feed
only the provenance text of each write, which the write oracle does not
inspect, so they do not influence control flow. -/
def commit_research_episode (env : Env) (c : GraphClient)
    (session_name episode_name group_id : String)
    (worker_results : String → Option String)
    (critical_analysis refinement_distilled : String) :
    Except String CommitResult × GraphClient × List Event :=
  let ec := ensure_connection env c
  if !ec.1 then
    (Except.ok { status := "error", error := some "Neo4j unavailable",
                 episode_count := 0, episodes := none, errors := none },
     ec.2, [])
  else
    let c1 := ec.2
    if c1.indexes_built then
      let st := commitWrites env c1.graphiti episode_name worker_results
        critical_analysis refinement_distilled
      (Except.ok (commitResultOf st), c1, st.trace)
    else
      if !c1.graphiti then
        (Except.error noneTypeBuildError, c1, [])
      else
        match env.buildOutcome with
        | Except.error e => (Except.error e, c1, [Event.build])
        | Except.ok _ =>
          let c2 : GraphClient := { c1 with indexes_built := true }
          let st := commitWrites env c2.graphiti episode_name worker_results
            critical_analysis refinement_distilled
          (Except.ok (commitResultOf st), c2, Event.build :: st.trace)

/-- The episode names `commit_research_episode` attempts to write, in the
order it attempts them: one per non-empty artifact. -/
def attemptedNames (episode_name : String) (worker_results : String → Option String)
    (critical_analysis refinement_distilled : String) : List String :=
  (worker_names.filterMap (fun kv =>
    if (worker_results kv.1).getD "" = "" then none
    else some (episode_name ++ " - " ++ kv.2)))
  ++ (if critical_analysis = "" then [] else [episode_name ++ " - Critical Analysis"])
  ++ (if refinement_distilled = "" then [] else [episode_name ++ " - Refinement Context"])

/-- One refinement turn, the `{"user_input": ..., "assistant_response": ...}`
dict of `src/utils/files.py` (the timestamp field is irrelevant to every
claim and omitted). -/
structure Turn where
  user_input : String
  assistant_response : String
deriving Repr, DecidableEq

/-- One Anthropic-format message of a tasking conversation history. -/
structure Msg where
  role : String
  content : String
deriving Repr, DecidableEq

/-- Embeds `convert_tasking_to_conversation` of `src/utils/files.py`:
pair each user message with the pending assistant message before it. -/
def convert_tasking_to_conversation (conversation_history : List Msg) : List Turn :=
  (conversation_history.foldl
    (fun acc msg =>
      if msg.role = "assistant" then (acc.1, some msg.content)
      else if msg.role = "user" then
        (acc.1 ++ [{ user_input := msg.content,
                     assistant_response := acc.2.getD "" }], none)
      else acc)
    (([] : List Turn), (none : Option String))).1

/-- The `conversation_text` joined inside `distill_conversation`. -/
def conversationText (conversation : List Turn) : String :=
  String.intercalate "\n\n" (conversation.map (fun turn =>
    "USER: " ++ turn.user_input ++ "\n\nASSISTANT: " ++ turn.assistant_response))

/-- The distillation prompt of `distill_conversation`; the fixed instruction
template is opaque text to the model's text-generation oracle, so it is
abbreviated here to its skeleton around the embedded conversation. -/
def distillation_prompt (conversation : List Turn) : String :=
  "<task>\nExtract the essential signal from a conversational refinement session\n</task>\n\n<conversation>\n"
    ++ conversationText conversation ++ "</conversation>"

/-- Embeds `distill_conversation` of `src/utils/files.py`.  The external LLM
call is the oracle `llm`; its reply is stripped (`.strip()` = `String.trim`).
An empty conversation short-circuits to the fixed placeholder string. -/
def distill_conversation (llm : String → String) (conversation : List Turn) : String :=
  if conversation.isEmpty then
    "(No refinement conversation - research triggered immediately)"
  else
    (llm (distillation_prompt conversation)).trim

/-- The fields of `ResearchSession` (src/core/session.py) that
`run_research_cycle` reads or writes.  `tasking_present` models the Python
truthiness test `if session.tasking_context:`; `tasking_history` is its
`conversation_history` entry. -/
structure ResearchSession where
  query : String
  original_query : String
  state : String
  episode_count : Nat
  episode_name : String
  tasking_present : Bool
  tasking_history : List Msg
  pending_refinement : List Turn
  research_findings : String → Option String

/-- The dict returned by `run_research_cycle`. -/
structure CycleResult where
  status : String
  episode_name : String
  episode_count : Nat
deriving Repr, DecidableEq

/-- Everything observable after one `run_research_cycle` call: the returned
dict, the mutated session, the graph client state, and whether
`session.save()` was executed. -/
structure CycleOutcome where
  result : CycleResult
  session : ResearchSession
  client : GraphClient
  session_saved : Bool

/-- Embeds `run_research_cycle` of `src/core/research_cycle.py` (file writes
and prints are not modelled; `execute_research` is the oracle `researchFn`,
the distillation LLM call is the oracle `llm`).  A Python exception escaping
the call — in particular one raised inside `commit_research_episode` — is
`Except.error`. -/
def run_research_cycle (env : Env) (llm : String → String)
    (researchFn : String → String → ((String → Option String) × String))
    (session : ResearchSession) (graph_client : GraphClient)
    (query : String) (tasking_summary : String := "") :
    Except String CycleOutcome :=
  let episode_name := query
  let wr := researchFn query tasking_summary
  let worker_results := wr.1
  let critical_analysis := wr.2
  let conversation_for_distillation :=
    if session.episode_count = 0 then
      if session.tasking_present then convert_tasking_to_conversation session.tasking_history
      else []
    else session.pending_refinement
  let refinement_distilled := distill_conversation llm conversation_for_distillation
  match commit_research_episode env graph_client session.original_query episode_name
      "helldiver_research" worker_results critical_analysis refinement_distilled with
  | (Except.error e, _, _) => Except.error e
  | (Except.ok result, c2, _) =>
    let session2 : ResearchSession := { session with
      episode_count := session.episode_count + 1,
      episode_name := episode_name,
      research_findings := worker_results,
      query := query,
      pending_refinement := [],
      state := "REFINEMENT" }
    Except.ok
      { result := { status := result.status, episode_name := episode_name,
                    episode_count := result.episode_count },
        session := session2, client := c2, session_saved := true }

/-! ### Characterisation of the commit loop -/

/-- The retry outcome of one episode's write. -/
def retryFor (env : Env) (g : Bool) (ep : String) : RetryOutcome :=
  retry_with_backoff (episodeFunc env g ep)

/-- Whether one episode's retried write ends in success. -/
def writeSucceeded (env : Env) (g : Bool) (ep : String) : Bool :=
  match (retryFor env g ep).result with
  | Except.ok _ => true
  | Except.error _ => false

/-- The error entry recorded for one episode's failed write. -/
def errEntry (env : Env) (g : Bool) (ep : String) : String :=
  match (retryFor env g ep).result with
  | Except.ok _ => ""
  | Except.error e => "Failed to commit " ++ ep ++ ": " ++ e

/-- The trace events of one episode's retried write. -/
def eventsFor (env : Env) (g : Bool) (ep : String) : List Event :=
  writeEvents ep (retryFor env g ep).calls (retryFor env g ep).sleeps

/-- The episode names of the write events of a trace, in order, one entry
per `add_episode` attempt. -/
def writeNames (tr : List Event) : List String :=
  tr.filterMap (fun e => match e with | Event.write n _ => some n | _ => none)

/-! ### Concrete instances used by the closed corollaries -/

/-- A fully healthy environment whose writes all succeed. -/
def envAllOk : Env :=
  { hasDriver := true, verifyOk := true, reconnectOk := true,
    buildOutcome := Except.ok (), writeOutcome := fun _ _ => Except.ok () }

/-- A connection whose object exists but whose `verify_connectivity` fails
and whose reconnection attempt also fails. -/
def envDeadReconnectFails : Env :=
  { hasDriver := true, verifyOk := false, reconnectOk := false,
    buildOutcome := Except.ok (), writeOutcome := fun _ _ => Except.ok () }

/-- A stale connection with a successful reconnection. -/
def envStaleReconnectOk : Env :=
  { hasDriver := true, verifyOk := false, reconnectOk := true,
    buildOutcome := Except.ok (), writeOutcome := fun _ _ => Except.ok () }

/-- Healthy environment in which exactly the industry episode's write always
fails with a non-rate-limit error. -/
def envIndustryFails : Env :=
  { hasDriver := true, verifyOk := true, reconnectOk := true,
    buildOutcome := Except.ok (),
    writeOutcome := fun ep _ =>
      if ep = "E - Industry Intelligence" then Except.error "write rejected"
      else Except.ok () }

/-- Healthy environment in which every write fails with a non-rate-limit
error. -/
def envAllWritesFail : Env :=
  { hasDriver := true, verifyOk := true, reconnectOk := true,
    buildOutcome := Except.ok (),
    writeOutcome := fun _ _ => Except.error "write rejected" }

/-- A fresh healthy client: connected, indexes not yet built. -/
def freshClient : GraphClient := { graphiti := true, indexes_built := false }

/-- A mock-mode client: `self.graphiti is None`. -/
def mockClient : GraphClient := { graphiti := false, indexes_built := false }

/-- Worker results in which all three workers returned text. -/
def wrFull : String → Option String := fun k =>
  if k = "academic_researcher" then some "academic findings"
  else if k = "industry_intelligence" then some "industry findings"
  else if k = "tool_analyzer" then some "tool findings"
  else none

/-- Worker results in which only the academic worker returned text. -/
def wrOne : String → Option String := fun k =>
  if k = "academic_researcher" then some "academic findings" else none

/-- Identity text-generation oracle. -/
def llmId : String → String := fun s => s

/-- Research oracle returning no worker output and an empty critique. -/
def researchNone : String → String → ((String → Option String) × String) :=
  fun _ _ => ((fun _ => none), "")

/-- A mid-session state with one pending refinement turn. -/
def sess0 : ResearchSession :=
  { query := "q0", original_query := "orig", state := "RESEARCH", episode_count := 3,
    episode_name := "old", tasking_present := false, tasking_history := [],
    pending_refinement := [{ user_input := "u", assistant_response := "a" }],
    research_findings := fun _ => none }

/-- Outcome of `run_research_cycle` on `sess0` against an unavailable graph
backend: the commit reports status `"error"`, yet the session advances. -/
def cycleOut0 : CycleOutcome :=
  { result := { status := "error", episode_name := "newq", episode_count := 0 },
    session := { sess0 with
      episode_count := sess0.episode_count + 1,
      episode_name := "newq",
      research_findings := (researchNone "newq" "").1,
      query := "newq",
      pending_refinement := [],
      state := "REFINEMENT" },
    client := mockClient,
    session_saved := true }

/-- The dict produced by the early "unavailable" return. -/
def resUnavailable : CommitResult :=
  { status := "error", error := some "Neo4j unavailable", episode_count := 0,
    episodes := none, errors := none }

/-- The dict produced by a fully successful five-episode commit for
episode name `"E"`. -/
def resFullSuccess : CommitResult :=
  { status := "success", error := none, episode_count := 5,
    episodes := some ["E - Academic Research", "E - Industry Intelligence",
      "E - Tool Analysis", "E - Critical Analysis", "E - Refinement Context"],
    errors := some [] }

/-- The dict produced by committing `wrOne` plus a critique (refinement
empty) when every write succeeds. -/
def resTwoSuccess : CommitResult :=
  { status := "success", error := none, episode_count := 2,
    episodes := some ["E - Academic Research", "E - Critical Analysis"],
    errors := some [] }

/-- The dict produced when the only non-empty artifact (academic) fails. -/
def resOnlyArtifactFails : CommitResult :=
  { status := "error", error := none, episode_count := 0,
    episodes := some [],
    errors := some ["Failed to commit E - Academic Research: write rejected"] }

/-- The dict produced when all five artifacts are attempted and only the
industry write fails. -/
def resIndustryFailed : CommitResult :=
  { status := "success", error := none, episode_count := 4,
    episodes := some ["E - Academic Research", "E - Tool Analysis",
      "E - Critical Analysis", "E - Refinement Context"],
    errors := some ["Failed to commit E - Industry Intelligence: write rejected"] }

lemma commitOne_eq (env : Env) (g : Bool) (ep : String) (st : CommitState) :
    commitOne env g ep st =
      if writeSucceeded env g ep then
        { episodes_committed := st.episodes_committed ++ [ep], errors := st.errors,
          trace := st.trace ++ eventsFor env g ep }
      else
        { episodes_committed := st.episodes_committed,
          errors := st.errors ++ [errEntry env g ep],
          trace := st.trace ++ eventsFor env g ep } := by
  unfold commitOne writeSucceeded errEntry eventsFor retryFor
  cases h : (retry_with_backoff (episodeFunc env g ep)).result <;> simp [h]

/-- Master characterisation of the sequential write loop: starting from `st`,
committing the episodes of `l` appends the successful names to
`episodes_committed`, one error entry per failed name to `errors`, and each
episode's events to the trace, in order. -/
lemma foldl_commitOne_spec (env : Env) (g : Bool) (l : List String) (st : CommitState) :
    l.foldl (fun s ep => commitOne env g ep s) st =
      { episodes_committed := st.episodes_committed ++ l.filter (writeSucceeded env g),
        errors := st.errors ++
          ((l.filter (fun ep => !writeSucceeded env g ep)).map (errEntry env g)),
        trace := st.trace ++ l.flatMap (eventsFor env g) } := by
  induction l generalizing st with
  | nil => simp
  | cons ep rest ih =>
    rw [List.foldl_cons, commitOne_eq, ih]
    by_cases h : writeSucceeded env g ep <;> simp [h, List.filter_cons]

/-- `commitWrites` is the fold of `commitOne` over the attempted names. -/
lemma commitWrites_eq (env : Env) (g : Bool) (en : String)
    (wr : String → Option String) (ca rd : String) :
    commitWrites env g en wr ca rd =
      (attemptedNames en wr ca rd).foldl (fun s ep => commitOne env g ep s)
        { episodes_committed := [], errors := [], trace := [] } := by
  unfold commitWrites attemptedNames worker_names
  by_cases h1 : (wr "academic_researcher").getD "" = "" <;>
    by_cases h2 : (wr "industry_intelligence").getD "" = "" <;>
      by_cases h3 : (wr "tool_analyzer").getD "" = "" <;>
        by_cases h4 : ca = "" <;>
          by_cases h5 : rd = "" <;>
            simp [h1, h2, h3, h4, h5, List.foldl_append]

/-- Closed form of the write phase. -/
lemma commitWrites_spec (env : Env) (g : Bool) (en : String)
    (wr : String → Option String) (ca rd : String) :
    commitWrites env g en wr ca rd =
      { episodes_committed := (attemptedNames en wr ca rd).filter (writeSucceeded env g),
        errors := ((attemptedNames en wr ca rd).filter
          (fun ep => !writeSucceeded env g ep)).map (errEntry env g),
        trace := (attemptedNames en wr ca rd).flatMap (eventsFor env g) } := by
  rw [commitWrites_eq, foldl_commitOne_spec]
  simp

lemma length_filter_add_length_filter_not (l : List α) (p : α → Bool) :
    (l.filter p).length + (l.filter (fun a => !p a)).length = l.length := by
  induction l with
  | nil => simp
  | cons a rest ih =>
    by_cases h : p a <;> simp [List.filter_cons, h, ← ih] <;> omega

/-- The retry loop always calls the wrapped function at least once. -/
lemma retryGo_attempt_lt_calls (f : Nat → Except String Unit) (m : Nat) :
    ∀ fuel attempt delay sleeps, 0 < fuel →
      attempt < (retryGo f m attempt delay sleeps fuel).calls := by
  intro fuel
  induction fuel with
  | zero => intro _ _ _ h; omega
  | succ n ih =>
    intro attempt delay sleeps _
    unfold retryGo
    cases h : f attempt with
    | ok u => simp [h]
    | error e =>
      simp only [h]
      by_cases hr : isRateLimitError e <;> simp [hr]
      · by_cases ha : attempt < m <;> simp [ha]
        · rcases Nat.eq_zero_or_pos n with hn | hn
          · subst hn; unfold retryGo; simp
          · exact Nat.lt_trans (Nat.lt_succ_self attempt) (ih (attempt + 1) (delay * 2) (sleeps ++ [delay]) hn)

lemma retry_calls_pos (f : Nat → Except String Unit) :
    1 ≤ (retry_with_backoff f).calls := by
  unfold retry_with_backoff
  exact retryGo_attempt_lt_calls f 3 (3 + 1) 0 60 [] (by omega)

lemma writeNames_writeEvents (ep : String) (k : Nat) (s : List Nat) :
    writeNames (writeEvents ep k s) = List.replicate k ep := by
  unfold writeNames writeEvents
  rw [List.filterMap_append, List.filterMap_map, List.filterMap_map]
  have h1 : ((fun e => match e with | Event.write n _ => some n | _ => none) ∘ Event.write ep)
      = fun i : Nat => some ep := rfl
  have h2 : ((fun e => match e with | Event.write n _ => some n | _ => none) ∘ Event.sleep)
      = fun _ : Nat => (none : Option String) := rfl
  rw [h1, h2]
  have h3 : (fun i : Nat => some ep) = some ∘ (fun _ : Nat => ep) := rfl
  rw [h3, List.filterMap_eq_map, List.map_const']
  simp

/-- Every episode's retried write contains at least its first attempt. -/
lemma write0_mem_eventsFor (env : Env) (g : Bool) (ep : String) :
    Event.write ep 0 ∈ eventsFor env g ep := by
  unfold eventsFor writeEvents
  apply List.mem_append_left
  apply List.mem_map.2
  exact ⟨0, List.mem_range.2 (retry_calls_pos _), rfl⟩

lemma writeNames_flatMap (env : Env) (g : Bool) (l : List String) :
    writeNames (l.flatMap (eventsFor env g)) =
      l.flatMap (fun ep => List.replicate (retryFor env g ep).calls ep) := by
  induction l with
  | nil => simp [writeNames]
  | cons ep rest ih =>
    simp only [List.flatMap_cons]
    unfold writeNames at *
    rw [List.filterMap_append, ih]
    unfold eventsFor
    rw [show (List.filterMap (fun e => match e with | Event.write n _ => some n | _ => none)
      (writeEvents ep (retryFor env g ep).calls (retryFor env g ep).sleeps)) =
      writeNames (writeEvents ep (retryFor env g ep).calls (retryFor env g ep).sleeps) from rfl]
    rw [writeNames_writeEvents]

/-- The write phase never emits an index-build event. -/
lemma build_not_mem_commitWrites_trace (env : Env) (g : Bool) (en : String)
    (wr : String → Option String) (ca rd : String) :
    Event.build ∉ (commitWrites env g en wr ca rd).trace := by
  rw [commitWrites_spec]
  intro hmem
  simp only [List.mem_flatMap] at hmem
  obtain ⟨ep, -, hev⟩ := hmem
  unfold eventsFor writeEvents at hev
  rcases List.mem_append.1 hev with h | h <;> simp [List.mem_map] at h

lemma ensure_false_state {env : Env} {c : GraphClient}
    (h : (ensure_connection env c).1 = false) :
    ensure_connection env c = (false, c) := by
  unfold ensure_connection at h ⊢
  split at h
  · simp_all
  · split at h
    · simp_all
    · split at h <;> simp_all

/-- Any `Except.ok` return of `commit_research_episode` that carries the
`errors` key came from the write phase: the dict is `commitResultOf` of the
write-phase state, and the trace is that state's trace, preceded by one
index-build event iff the indexes were built during this call. -/
lemma commit_ok_shape {env : Env} {c : GraphClient} {sn en gid : String}
    {wr : String → Option String} {ca rd : String} {r : CommitResult}
    {c' : GraphClient} {tr : List Event}
    (h : commit_research_episode env c sn en gid wr ca rd = (Except.ok r, c', tr))
    (hr : r.errors.isSome) :
    r = commitResultOf (commitWrites env c'.graphiti en wr ca rd) ∧
      (tr = (commitWrites env c'.graphiti en wr ca rd).trace ∨
       tr = Event.build :: (commitWrites env c'.graphiti en wr ca rd).trace) := by
  simp only [commit_research_episode] at h
  split at h
  · simp only [Prod.mk.injEq, Except.ok.injEq] at h
    obtain ⟨h1, -, -⟩ := h
    subst h1
    simp at hr
  · split at h
    · simp only [Prod.mk.injEq, Except.ok.injEq] at h
      obtain ⟨h1, h2, h3⟩ := h
      subst h1; subst h2; subst h3
      exact ⟨rfl, Or.inl rfl⟩
    · split at h
      · simp at h
      · split at h
        · simp at h
        · simp only [Prod.mk.injEq, Except.ok.injEq] at h
          obtain ⟨h1, h2, h3⟩ := h
          subst h1; subst h2; subst h3
          exact ⟨rfl, Or.inr rfl⟩

/-- Any `Except.ok` return of `commit_research_episode` without the `errors`
key is the early "unavailable" return. -/
lemma commit_ok_no_errors_key {env : Env} {c : GraphClient} {sn en gid : String}
    {wr : String → Option String} {ca rd : String} {r : CommitResult}
    {c' : GraphClient} {tr : List Event}
    (h : commit_research_episode env c sn en gid wr ca rd = (Except.ok r, c', tr))
    (hr : r.errors.isSome = false) :
    r = { status := "error", error := some "Neo4j unavailable", episode_count := 0,
          episodes := none, errors := none } ∧ tr = [] ∧ c' = c := by
  simp only [commit_research_episode] at h
  split at h
  · next hna =>
    have hstate : ensure_connection env c = (false, c) := by
      apply ensure_false_state
      simpa using hna
    simp only [Prod.mk.injEq, Except.ok.injEq] at h
    obtain ⟨h1, h2, h3⟩ := h
    refine ⟨h1.symm, h3.symm, ?_⟩
    rw [← h2, hstate]
  · split at h
    · simp only [Prod.mk.injEq, Except.ok.injEq] at h
      obtain ⟨h1, -, -⟩ := h
      subst h1
      simp [commitResultOf] at hr
    · split at h
      · simp at h
      · split at h
        · simp at h
        · simp only [Prod.mk.injEq, Except.ok.injEq] at h
          obtain ⟨h1, -, -⟩ := h
          subst h1
          simp [commitResultOf] at hr

/-- When the refinement artifact is empty, its episode name is not among the
attempted names: every attempted suffix has a different length from
`" - Refinement Context"`. -/
lemma refinement_not_attempted (en : String) (wr : String → Option String) (ca : String) :
    (en ++ " - Refinement Context") ∉ attemptedNames en wr ca "" := by
  intro hx
  unfold attemptedNames worker_names at hx
  rw [List.mem_append, List.mem_append] at hx
  have hlenRC : ((" - Refinement Context" : String)).length = 21 := by decide
  rcases hx with (hx | hx) | hx
  · rw [List.mem_filterMap] at hx
    obtain ⟨kv, hkv, heq⟩ := hx
    split at heq
    · exact Option.noConfusion heq
    · have heq2 := Option.some.inj heq
      have hlen := congrArg String.length heq2
      simp only [String.length_append] at hlen
      have h3 : ((" - " : String)).length = 3 := by decide
      have hAR : (("Academic Research" : String)).length = 17 := by decide
      have hII : (("Industry Intelligence" : String)).length = 21 := by decide
      have hTA : (("Tool Analysis" : String)).length = 13 := by decide
      fin_cases hkv <;> dsimp only at hlen <;> omega
  · split at hx
    · simp at hx
    · rw [List.mem_singleton] at hx
      have hlen := congrArg String.length hx
      simp only [String.length_append] at hlen
      have h20 : ((" - Critical Analysis" : String)).length = 20 := by decide
      omega
  · simp at hx

/-- C1: For every call to `commit_research_episode` that returns a dict,
the returned `episode_count` never exceeds the number of non-empty artifacts
(the attempted names); every committed episode corresponds to a non-empty
artifact; on the write path, committed episodes and error entries together
account exactly for the non-empty artifacts, so an empty or absent artifact
contributes neither an episode nor an error; and in particular an empty
refinement text yields no refinement episode. -/
theorem C1_count_bounded_by_nonempty (env : Env) (c : GraphClient)
    (sn en gid : String) (wr : String → Option String) (ca rd : String)
    (r : CommitResult) (c' : GraphClient) (tr : List Event)
    (h : commit_research_episode env c sn en gid wr ca rd = (Except.ok r, c', tr)) :
    r.episode_count ≤ (attemptedNames en wr ca rd).length ∧
    (∀ n ∈ r.episodes.getD [], n ∈ attemptedNames en wr ca rd) ∧
    (r.errors.isSome →
      r.episode_count + (r.errors.getD []).length = (attemptedNames en wr ca rd).length) ∧
    (rd = "" → (en ++ " - Refinement Context") ∉ r.episodes.getD []) := by
  by_cases hr : r.errors.isSome
  · obtain ⟨hshape, -⟩ := commit_ok_shape h hr
    subst hshape
    rw [commitWrites_spec]
    simp only [commitResultOf, Option.getD_some]
    refine ⟨List.length_filter_le _ _, ?_, ?_, ?_⟩
    · intro n hn
      exact (List.mem_filter.1 hn).1
    · intro _
      rw [List.length_map]
      exact length_filter_add_length_filter_not _ _
    · intro hrd n
      subst hrd
      exact refinement_not_attempted en wr ca (List.mem_filter.1 n).1
  · obtain ⟨hshape, -, -⟩ := commit_ok_no_errors_key h (by simpa using hr)
    subst hshape
    simp

/-! ### Path equations for `commit_research_episode` -/

lemma commit_unavailable_eq {env : Env} {c : GraphClient} (sn en gid : String)
    (wr : String → Option String) (ca rd : String)
    (h : (ensure_connection env c).1 = false) :
    commit_research_episode env c sn en gid wr ca rd =
      (Except.ok { status := "error", error := some "Neo4j unavailable",
                   episode_count := 0, episodes := none, errors := none }, c, []) := by
  have hs := ensure_false_state h
  simp [commit_research_episode, hs]

lemma ensure_healthy {env : Env} {c : GraphClient} (hc : c.graphiti = true)
    (hd : env.hasDriver = true) (hv : env.verifyOk = true) :
    ensure_connection env c = (true, c) := by
  unfold ensure_connection
  simp [hc, hd, hv]

/-- Commit on a healthy connection whose indexes are already built: no build
event, client unchanged. -/
lemma commit_built_eq {env : Env} {c : GraphClient} (sn en gid : String)
    (wr : String → Option String) (ca rd : String)
    (hc : c.graphiti = true) (hd : env.hasDriver = true) (hv : env.verifyOk = true)
    (hcib : c.indexes_built = true) :
    commit_research_episode env c sn en gid wr ca rd =
      (Except.ok (commitResultOf (commitWrites env true en wr ca rd)), c,
       (commitWrites env true en wr ca rd).trace) := by
  obtain ⟨cg, ci⟩ := c
  simp only at hc hcib
  subst hc; subst hcib
  have hec := @ensure_healthy env ⟨true, true⟩ rfl hd hv
  simp [commit_research_episode, hec]

/-- Commit on a healthy fresh connection (indexes not yet built, build
succeeds): exactly one leading build event, flag set. -/
lemma commit_fresh_eq {env : Env} {c : GraphClient} (sn en gid : String)
    (wr : String → Option String) (ca rd : String)
    (hc : c.graphiti = true) (hd : env.hasDriver = true) (hv : env.verifyOk = true)
    (hcib : c.indexes_built = false) (hb : env.buildOutcome = Except.ok ()) :
    commit_research_episode env c sn en gid wr ca rd =
      (Except.ok (commitResultOf (commitWrites env true en wr ca rd)),
       { graphiti := true, indexes_built := true },
       Event.build :: (commitWrites env true en wr ca rd).trace) := by
  obtain ⟨cg, ci⟩ := c
  simp only at hc hcib
  subst hc; subst hcib
  have hec := @ensure_healthy env ⟨true, false⟩ rfl hd hv
  simp [commit_research_episode, hec, hb]

/-- Commit on a stale connection that reconnects successfully: the fresh
connection has `_indexes_built = False`, so exactly one build event occurs. -/
lemma commit_reconnect_eq {env : Env} {c : GraphClient} (sn en gid : String)
    (wr : String → Option String) (ca rd : String)
    (hc : c.graphiti = true) (hv : env.verifyOk = false) (hrc : env.reconnectOk = true)
    (hb : env.buildOutcome = Except.ok ()) :
    commit_research_episode env c sn en gid wr ca rd =
      (Except.ok (commitResultOf (commitWrites env true en wr ca rd)),
       { graphiti := true, indexes_built := true },
       Event.build :: (commitWrites env true en wr ca rd).trace) := by
  have hec : ensure_connection env c = (true, { graphiti := true, indexes_built := false }) := by
    unfold ensure_connection reconnect
    cases hd : env.hasDriver <;> simp [hc, hd, hv, hrc]
  simp [commit_research_episode, hec, hb]

lemma commit_ok_indexes_built {env : Env} {c : GraphClient} {sn en gid : String}
    {wr : String → Option String} {ca rd : String} {r : CommitResult}
    {c' : GraphClient} {tr : List Event}
    (h : commit_research_episode env c sn en gid wr ca rd = (Except.ok r, c', tr))
    (hr : r.errors.isSome) :
    c'.indexes_built = true := by
  simp only [commit_research_episode] at h
  split at h
  · simp only [Prod.mk.injEq, Except.ok.injEq] at h
    obtain ⟨h1, -, -⟩ := h
    subst h1
    simp at hr
  · next hna =>
    split at h
    · next hib =>
      simp only [Prod.mk.injEq, Except.ok.injEq] at h
      obtain ⟨-, h2, -⟩ := h
      subst h2
      exact hib
    · split at h
      · simp at h
      · split at h
        · simp at h
        · simp only [Prod.mk.injEq, Except.ok.injEq] at h
          obtain ⟨-, h2, -⟩ := h
          subst h2
          rfl

lemma commit_ok_errors_isSome {env : Env} {c : GraphClient} {sn en gid : String}
    {wr : String → Option String} {ca rd : String} {r : CommitResult}
    {c' : GraphClient} {tr : List Event}
    (h : commit_research_episode env c sn en gid wr ca rd = (Except.ok r, c', tr))
    (he : (ensure_connection env c).1 = true) :
    r.errors.isSome := by
  simp only [commit_research_episode] at h
  split at h
  · next hna => rw [he] at hna; simp at hna
  · split at h
    · simp only [Prod.mk.injEq, Except.ok.injEq] at h
      obtain ⟨h1, -, -⟩ := h
      subst h1
      simp [commitResultOf]
    · split at h
      · simp at h
      · split at h
        · simp at h
        · simp only [Prod.mk.injEq, Except.ok.injEq] at h
          obtain ⟨h1, -, -⟩ := h
          subst h1
          simp [commitResultOf]

/-! ### Retry policy lemmas -/

lemma retry_first_ok (f : Nat → Except String Unit) (hf : f 0 = Except.ok ()) :
    retry_with_backoff f = { result := Except.ok (), calls := 1, sleeps := [] } := by
  unfold retry_with_backoff retryGo
  simp [hf]

lemma retry_rate_limited_exhausts (f : Nat → Except String Unit) (e : String)
    (hf : ∀ a, f a = Except.error e) (he : isRateLimitError e = true) :
    retry_with_backoff f = { result := Except.error e, calls := 4, sleeps := [60, 120, 240] } := by
  unfold retry_with_backoff
  simp [retryGo, hf, he]

lemma retry_non_rate_limit_immediate (f : Nat → Except String Unit) (e : String)
    (hf : f 0 = Except.error e) (he : isRateLimitError e = false) :
    retry_with_backoff f = { result := Except.error e, calls := 1, sleeps := [] } := by
  unfold retry_with_backoff retryGo
  simp [hf, he]

lemma writeSucceeded_of_ok {env : Env} {ep : String}
    (h : env.writeOutcome ep 0 = Except.ok ()) :
    writeSucceeded env true ep = true := by
  unfold writeSucceeded retryFor
  rw [retry_first_ok]
  · simp [episodeFunc, h]

lemma writeFailed_of_nonRL {env : Env} {ep msg : String}
    (h : env.writeOutcome ep 0 = Except.error msg) (hm : isRateLimitError msg = false) :
    writeSucceeded env true ep = false ∧
      errEntry env true ep = "Failed to commit " ++ ep ++ ": " ++ msg := by
  unfold writeSucceeded errEntry retryFor
  rw [retry_non_rate_limit_immediate (episodeFunc env true ep) msg (by simp [episodeFunc, h]) hm]
  simp

/-! ### Claim theorems -/

/-- C3 (code bug witness): On the failing input — a client whose `graphiti`
object exists and whose indexes are not yet built, an environment where
`verify_connectivity` fails and reconnection also fails — `_ensure_connection`
returns `True` while leaving `self.graphiti = None`, so
`commit_research_episode` raises `AttributeError` out of the call
(`Except.error`) instead of returning the `"Neo4j unavailable"` error dict
the spec requires; no episode is written. -/
theorem C3_reconnect_failure_raises :
    commit_research_episode envDeadReconnectFails freshClient "S" "E" "G" wrFull
        "crit" "ref" =
      (Except.error noneTypeBuildError,
       { graphiti := false, indexes_built := false }, []) ∧
    noneTypeBuildError ≠ "Neo4j unavailable" := by
  exact ⟨rfl, by decide⟩

/-- C5: Retry policy of `retry_with_backoff` (with the defaults used by
every episode write: 3 retries, 60 s initial delay): a permanently
rate-limit-failing write is attempted 4 times with sleeps 60, 120, 240
(doubling, bounded at 3 retries) before the last exception is surfaced and
recorded as the episode's hard error entry; a non-rate-limit failure is
surfaced after a single attempt with no sleeps and recorded immediately. -/
theorem C5_retry_policy :
    (∀ (f : Nat → Except String Unit) (e : String),
      (∀ a, f a = Except.error e) → isRateLimitError e = true →
      retry_with_backoff f =
        { result := Except.error e, calls := 4, sleeps := [60, 120, 240] }) ∧
    (∀ (f : Nat → Except String Unit) (e : String),
      f 0 = Except.error e → isRateLimitError e = false →
      retry_with_backoff f = { result := Except.error e, calls := 1, sleeps := [] }) ∧
    (∀ (env : Env) (ep : String) (st : CommitState) (e : String),
      (∀ a, env.writeOutcome ep a = Except.error e) → isRateLimitError e = true →
      commitOne env true ep st =
        { episodes_committed := st.episodes_committed,
          errors := st.errors ++ ["Failed to commit " ++ ep ++ ": " ++ e],
          trace := st.trace ++ writeEvents ep 4 [60, 120, 240] }) ∧
    (∀ (env : Env) (ep : String) (st : CommitState) (e : String),
      env.writeOutcome ep 0 = Except.error e → isRateLimitError e = false →
      commitOne env true ep st =
        { episodes_committed := st.episodes_committed,
          errors := st.errors ++ ["Failed to commit " ++ ep ++ ": " ++ e],
          trace := st.trace ++ writeEvents ep 1 [] }) := by
  refine ⟨retry_rate_limited_exhausts, retry_non_rate_limit_immediate, ?_, ?_⟩
  · intro env ep st e hf he
    unfold commitOne
    rw [retry_rate_limited_exhausts (episodeFunc env true ep) e
      (fun a => by simp [episodeFunc, hf a]) he]
  · intro env ep st e hf he
    unfold commitOne
    rw [retry_non_rate_limit_immediate (episodeFunc env true ep) e
      (by simp [episodeFunc, hf]) he]

/-- Witness for C5: a permanently-429-failing write is retried with sleeps
60, 120, 240 and 4 calls; a plain failure is surfaced after 1 call. -/
theorem C5_retry_policy_witness :
    retry_with_backoff (fun _ => Except.error "HTTP 429 Too Many Requests") =
      { result := Except.error "HTTP 429 Too Many Requests", calls := 4,
        sleeps := [60, 120, 240] } ∧
    retry_with_backoff (fun _ => Except.error "write rejected") =
      { result := Except.error "write rejected", calls := 1, sleeps := [] } := by
  exact ⟨C5_retry_policy.1 _ "HTTP 429 Too Many Requests" (fun _ => rfl) (by decide),
    C5_retry_policy.2.1 _ "write rejected" rfl (by decide)⟩

/-- C6: When the connection check reports unavailable at the start of a
commit, the call returns the `"error"` dict with `episode_count = 0`, the
client state is unchanged, and the event trace is empty: no `add_episode`
write and no index build is attempted. -/
theorem C6_unavailable_no_writes (env : Env) (c : GraphClient)
    (sn en gid : String) (wr : String → Option String) (ca rd : String)
    (h : (ensure_connection env c).1 = false) :
    commit_research_episode env c sn en gid wr ca rd =
      (Except.ok { status := "error", error := some "Neo4j unavailable",
                   episode_count := 0, episodes := none, errors := none }, c, []) :=
  commit_unavailable_eq sn en gid wr ca rd h

/-- Witness for C6: a mock-mode client (no graphiti object). -/
theorem C6_unavailable_no_writes_witness :
    (ensure_connection envAllOk mockClient).1 = false ∧
    commit_research_episode envAllOk mockClient "S" "E" "G" wrFull "crit" "ref" =
      (Except.ok { status := "error", error := some "Neo4j unavailable",
                   episode_count := 0, episodes := none, errors := none },
       mockClient, []) :=
  ⟨rfl, C6_unavailable_no_writes envAllOk mockClient "S" "E" "G" wrFull "crit" "ref" rfl⟩

/-- C8: `distill_conversation` on an empty conversation returns the fixed
placeholder string, which is non-empty — so an empty conversation never
produces an empty refinement artifact (and hence never an empty refinement
commit). -/
theorem C8_empty_conversation_placeholder (llm : String → String) :
    distill_conversation llm [] =
      "(No refinement conversation - research triggered immediately)" ∧
    distill_conversation llm [] ≠ "" := by
  refine ⟨rfl, ?_⟩
  rw [show distill_conversation llm [] =
    "(No refinement conversation - research triggered immediately)" from rfl]
  decide

/-- Witness for C8 at a concrete oracle. -/
theorem C8_empty_conversation_placeholder_witness :
    distill_conversation llmId [] =
      "(No refinement conversation - research triggered immediately)" :=
  (C8_empty_conversation_placeholder llmId).1

/-- C9: `run_research_cycle` updates the session unconditionally after the
graph commit: whenever the call returns (whatever the commit's reported
status, including `"error"`), the session it hands back has `episode_count`
incremented, the episode name and findings recorded, the current query set,
`pending_refinement` cleared, state `"REFINEMENT"`, and `session.save()` was
executed.  Nothing in the conclusion depends on the commit status. -/
theorem C9_session_advances_unconditionally (env : Env) (llm : String → String)
    (researchFn : String → String → ((String → Option String) × String))
    (session : ResearchSession) (gc : GraphClient) (query ts : String)
    (out : CycleOutcome)
    (h : run_research_cycle env llm researchFn session gc query ts = Except.ok out) :
    out.session = { session with
      episode_count := session.episode_count + 1,
      episode_name := query,
      research_findings := (researchFn query ts).1,
      query := query,
      pending_refinement := [],
      state := "REFINEMENT" } ∧
    out.session_saved = true := by
  simp only [run_research_cycle] at h
  split at h
  · simp at h
  · simp only [Except.ok.injEq] at h
    subst h
    exact ⟨rfl, rfl⟩

/-- Witness for C9: with an unavailable graph backend the commit result's
status is `"error"`, yet the session still advances and is saved, and the
pending refinement turns of `sess0` are discarded. -/
theorem C9_session_advances_unconditionally_witness :
    (cycleOut0.session = { sess0 with
      episode_count := sess0.episode_count + 1,
      episode_name := "newq",
      research_findings := (researchNone "newq" "").1,
      query := "newq",
      pending_refinement := [],
      state := "REFINEMENT" } ∧
    cycleOut0.session_saved = true) ∧
    cycleOut0.result.status = "error" ∧
    sess0.pending_refinement ≠ [] :=
  ⟨C9_session_advances_unconditionally envAllOk llmId researchNone sess0 mockClient
      "newq" "" cycleOut0 rfl,
    rfl, by decide⟩

/-- C10: The early "unavailable" return of `commit_research_episode`
carries only the `status`/`error`/`episode_count` keys: the `episodes` and
`errors` keys are absent (`none`), whereas every dict produced by the normal
commit path carries `episodes` and `errors` (and no `error` key).  A caller
indexing `result["errors"]` after an unavailable result therefore fails. -/
theorem C10_unavailable_result_lacks_list_keys :
    (∀ (env : Env) (c : GraphClient) (sn en gid : String)
        (wr : String → Option String) (ca rd : String) (r : CommitResult)
        (c' : GraphClient) (tr : List Event),
      commit_research_episode env c sn en gid wr ca rd = (Except.ok r, c', tr) →
      (ensure_connection env c).1 = false →
        r.episodes = none ∧ r.errors = none ∧ r.error = some "Neo4j unavailable" ∧
        r.status = "error" ∧ r.episode_count = 0) ∧
    (∀ (env : Env) (c : GraphClient) (sn en gid : String)
        (wr : String → Option String) (ca rd : String) (r : CommitResult)
        (c' : GraphClient) (tr : List Event),
      commit_research_episode env c sn en gid wr ca rd = (Except.ok r, c', tr) →
      (ensure_connection env c).1 = true →
        r.episodes.isSome ∧ r.errors.isSome ∧ r.error = none) := by
  constructor
  · intro env c sn en gid wr ca rd r c' tr h hfalse
    rw [commit_unavailable_eq sn en gid wr ca rd hfalse] at h
    simp only [Prod.mk.injEq, Except.ok.injEq] at h
    obtain ⟨h1, -, -⟩ := h
    subst h1
    exact ⟨rfl, rfl, rfl, rfl, rfl⟩
  · intro env c sn en gid wr ca rd r c' tr h htrue
    have hr := commit_ok_errors_isSome h htrue
    obtain ⟨hshape, -⟩ := commit_ok_shape h hr
    subst hshape
    exact ⟨rfl, rfl, rfl⟩

/-- Witness for C10: the unavailable branch on a mock client and the normal
branch on a healthy client. -/
theorem C10_unavailable_result_lacks_list_keys_witness :
    (resUnavailable.episodes = none ∧ resUnavailable.errors = none ∧
      resUnavailable.error = some "Neo4j unavailable" ∧
      resUnavailable.status = "error" ∧ resUnavailable.episode_count = 0) ∧
    (resFullSuccess.episodes.isSome ∧ resFullSuccess.errors.isSome ∧
      resFullSuccess.error = none) :=
  ⟨C10_unavailable_result_lacks_list_keys.1 envAllOk mockClient "S" "E" "G" wrFull
      "crit" "ref" resUnavailable mockClient [] rfl rfl,
    C10_unavailable_result_lacks_list_keys.2 envAllOk freshClient "S" "E" "G" wrFull
      "crit" "ref" resFullSuccess { graphiti := true, indexes_built := true }
      [Event.build, Event.write "E - Academic Research" 0,
        Event.write "E - Industry Intelligence" 0, Event.write "E - Tool Analysis" 0,
        Event.write "E - Critical Analysis" 0, Event.write "E - Refinement Context" 0]
      rfl rfl⟩

/-- Witness for C1: worker results with one worker only, a non-empty critique
and an empty refinement; two episodes are committed, bounded by the two
non-empty artifacts. -/
theorem C1_count_bounded_by_nonempty_witness :
    commit_research_episode envAllOk freshClient "S" "E" "G" wrOne "crit" "" =
      (Except.ok resTwoSuccess,
       { graphiti := true, indexes_built := true },
       [Event.build, Event.write "E - Academic Research" 0,
        Event.write "E - Critical Analysis" 0]) ∧
    resTwoSuccess.episode_count ≤ (attemptedNames "E" wrOne "crit" "").length :=
  ⟨rfl,
    (C1_count_bounded_by_nonempty envAllOk freshClient "S" "E" "G" wrOne "crit" ""
      resTwoSuccess
      { graphiti := true, indexes_built := true }
      [Event.build, Event.write "E - Academic Research" 0,
       Event.write "E - Critical Analysis" 0]
      rfl).1⟩

/-- C2 counterexample: The claim fails as stated in the degenerate
instance where the failing artifact is the only non-empty one: connection
healthy, exactly one non-empty artifact (the academic worker) whose write
always fails with a non-rate-limit error, every other non-empty artifact
(there are none) vacuously succeeds — yet the returned status is `"error"`,
not `"success"` (consistent with the claim's own closing iff, which the
code satisfies). -/
theorem C2_counterexample_single_artifact :
    commit_research_episode envAllWritesFail freshClient "S" "E" "G" wrOne "" "" =
      (Except.ok resOnlyArtifactFails,
       { graphiti := true, indexes_built := true },
       [Event.build, Event.write "E - Academic Research" 0]) ∧
    resOnlyArtifactFails.status = "error" ∧
    attemptedNames "E" wrOne "" "" = ["E - Academic Research"] ∧
    isRateLimitError "write rejected" = false := by
  exact ⟨rfl, rfl, rfl, by decide⟩

/-- C2 (amended): Status is `"success"` iff at least one episode was
committed; and under a healthy connection, if exactly one non-empty
artifact's write fails permanently with a non-rate-limit error while every
other non-empty artifact's write succeeds — and at least one other non-empty
artifact exists — the commit still attempts every artifact (each has a write
event in the trace), returns status `"success"`, `episode_count` equal to
the number of successful writes, and exactly one error entry naming the
failed episode. -/
theorem C2_one_failure_still_success :
    (∀ (env : Env) (c : GraphClient) (sn en gid : String)
        (wr : String → Option String) (ca rd : String) (r : CommitResult)
        (c' : GraphClient) (tr : List Event),
      commit_research_episode env c sn en gid wr ca rd = (Except.ok r, c', tr) →
      r.errors.isSome → (r.status = "success" ↔ 1 ≤ r.episode_count)) ∧
    (∀ (env : Env) (c : GraphClient) (sn en gid : String)
        (wr : String → Option String) (ca rd f msg : String),
      c.graphiti = true → env.hasDriver = true → env.verifyOk = true →
      env.buildOutcome = Except.ok () →
      (attemptedNames en wr ca rd).count f = 1 →
      (∀ a, env.writeOutcome f a = Except.error msg) →
      isRateLimitError msg = false →
      (∀ n ∈ attemptedNames en wr ca rd, n ≠ f → env.writeOutcome n 0 = Except.ok ()) →
      2 ≤ (attemptedNames en wr ca rd).length →
      ∃ r c' tr,
        commit_research_episode env c sn en gid wr ca rd = (Except.ok r, c', tr) ∧
        r.status = "success" ∧
        r.episode_count = (attemptedNames en wr ca rd).length - 1 ∧
        r.errors = some ["Failed to commit " ++ f ++ ": " ++ msg] ∧
        (∀ n ∈ attemptedNames en wr ca rd, Event.write n 0 ∈ tr)) := by
  constructor
  · intro env c sn en gid wr ca rd r c' tr h hr
    obtain ⟨hshape, -⟩ := commit_ok_shape h hr
    subst hshape
    simp only [commitResultOf]
    cases hemp : (commitWrites env c'.graphiti en wr ca rd).episodes_committed with
    | nil => simp [hemp]
    | cons a t => simp [hemp]
  · intro env c sn en gid wr ca rd f msg hc hd hv hb hcount hfail hmsg hok htwo
    have hnonRL := writeFailed_of_nonRL (hfail 0) hmsg
    have hsucc : ∀ n ∈ attemptedNames en wr ca rd,
        writeSucceeded env true n = !(n == f) := by
      intro n hn
      by_cases hnf : n = f
      · subst hnf
        simp [hnonRL.1]
      · rw [writeSucceeded_of_ok (hok n hn hnf)]
        simp [hnf]
    have hfilter1 : (attemptedNames en wr ca rd).filter (writeSucceeded env true) =
        (attemptedNames en wr ca rd).filter (fun n => !(n == f)) :=
      List.filter_congr hsucc
    have hfilter2 : (attemptedNames en wr ca rd).filter
          (fun n => !writeSucceeded env true n) =
        (attemptedNames en wr ca rd).filter (fun n => n == f) := by
      apply List.filter_congr
      intro n hn
      rw [hsucc n hn]
      simp
    have hfeq : (attemptedNames en wr ca rd).filter (fun n => n == f) =
        List.replicate 1 f := by
      have hbq := List.filter_beq (attemptedNames en wr ca rd) f
      rw [hcount] at hbq
      exact hbq
    have hlen1 : ((attemptedNames en wr ca rd).filter (fun n => !(n == f))).length =
        (attemptedNames en wr ca rd).length - 1 := by
      have hsum := length_filter_add_length_filter_not (attemptedNames en wr ca rd)
        (fun n => n == f)
      rw [hfeq] at hsum
      simp at hsum
      omega
    have hcommitted : (commitWrites env true en wr ca rd).episodes_committed =
        (attemptedNames en wr ca rd).filter (fun n => !(n == f)) := by
      rw [commitWrites_spec]
      exact hfilter1
    have herrsList : (commitWrites env true en wr ca rd).errors =
        ["Failed to commit " ++ f ++ ": " ++ msg] := by
      rw [commitWrites_spec]
      show ((attemptedNames en wr ca rd).filter
        (fun ep => !writeSucceeded env true ep)).map (errEntry env true) = _
      rw [hfilter2, hfeq]
      simp [hnonRL.2]
    have hne : (commitWrites env true en wr ca rd).episodes_committed ≠ [] := by
      rw [hcommitted]
      intro hnil
      have := congrArg List.length hnil
      rw [hlen1] at this
      simp at this
      omega
    have hstatus : (commitResultOf (commitWrites env true en wr ca rd)).status =
        "success" := by
      simp [commitResultOf, hne]
    have hcnt : (commitResultOf (commitWrites env true en wr ca rd)).episode_count =
        (attemptedNames en wr ca rd).length - 1 := by
      simp only [commitResultOf]
      rw [hcommitted, hlen1]
    have herrs : (commitResultOf (commitWrites env true en wr ca rd)).errors =
        some ["Failed to commit " ++ f ++ ": " ++ msg] := by
      simp only [commitResultOf]
      rw [herrsList]
    have htrw : ∀ n ∈ attemptedNames en wr ca rd,
        Event.write n 0 ∈ (commitWrites env true en wr ca rd).trace := by
      intro n hn
      rw [commitWrites_spec]
      exact List.mem_flatMap.2 ⟨n, hn, write0_mem_eventsFor env true n⟩
    cases hcib : c.indexes_built with
    | false =>
      exact ⟨commitResultOf (commitWrites env true en wr ca rd),
        { graphiti := true, indexes_built := true },
        Event.build :: (commitWrites env true en wr ca rd).trace,
        commit_fresh_eq sn en gid wr ca rd hc hd hv hcib hb,
        hstatus, hcnt, herrs,
        fun n hn => List.mem_cons_of_mem _ (htrw n hn)⟩
    | true =>
      exact ⟨commitResultOf (commitWrites env true en wr ca rd), c,
        (commitWrites env true en wr ca rd).trace,
        commit_built_eq sn en gid wr ca rd hc hd hv hcib,
        hstatus, hcnt, herrs, htrw⟩

/-- Witness for C2: all five artifacts non-empty, the industry write always
fails with a non-rate-limit error, the other four succeed: status
`"success"`, four episodes, one error entry naming the industry episode,
every artifact attempted. -/
theorem C2_one_failure_still_success_witness :
    commit_research_episode envIndustryFails freshClient "S" "E" "G" wrFull
        "crit" "ref" =
      (Except.ok resIndustryFailed,
       { graphiti := true, indexes_built := true },
       [Event.build, Event.write "E - Academic Research" 0,
        Event.write "E - Industry Intelligence" 0, Event.write "E - Tool Analysis" 0,
        Event.write "E - Critical Analysis" 0, Event.write "E - Refinement Context" 0]) ∧
    (∃ r c' tr,
      commit_research_episode envIndustryFails freshClient "S" "E" "G" wrFull
          "crit" "ref" = (Except.ok r, c', tr) ∧
      r.status = "success" ∧
      r.episode_count = (attemptedNames "E" wrFull "crit" "ref").length - 1 ∧
      r.errors = some ["Failed to commit " ++ "E - Industry Intelligence" ++ ": " ++
        "write rejected"] ∧
      (∀ n ∈ attemptedNames "E" wrFull "crit" "ref", Event.write n 0 ∈ tr)) :=
  ⟨rfl,
    C2_one_failure_still_success.2 envIndustryFails freshClient "S" "E" "G" wrFull
      "crit" "ref" "E - Industry Intelligence" "write rejected"
      rfl rfl rfl rfl (by decide) (fun _ => rfl) (by decide)
      (by intro n hn hne; simp [envIndustryFails, hne]) (by decide)⟩

/-- C4: Deterministic write order: on any commit that reaches the write
phase, the sequence of `add_episode` attempts, projected to episode names,
is exactly the attempted names — the workers in the declared order
(academic, industry, tool), then the critique, then the refinement — each
expanded into its own contiguous block of (at least one) attempts, so a
later artifact's first attempt occurs only after every attempt of each
earlier non-empty artifact. -/
theorem C4_deterministic_write_order (env : Env) (c : GraphClient)
    (sn en gid : String) (wr : String → Option String) (ca rd : String)
    (r : CommitResult) (c' : GraphClient) (tr : List Event)
    (h : commit_research_episode env c sn en gid wr ca rd = (Except.ok r, c', tr))
    (hr : r.errors.isSome) :
    writeNames tr = (attemptedNames en wr ca rd).flatMap
      (fun ep => List.replicate (retryFor env c'.graphiti ep).calls ep) ∧
    (∀ ep, 1 ≤ (retryFor env c'.graphiti ep).calls) := by
  obtain ⟨-, htr⟩ := commit_ok_shape h hr
  have hw : writeNames (commitWrites env c'.graphiti en wr ca rd).trace =
      (attemptedNames en wr ca rd).flatMap
        (fun ep => List.replicate (retryFor env c'.graphiti ep).calls ep) := by
    rw [commitWrites_spec]
    exact writeNames_flatMap env c'.graphiti (attemptedNames en wr ca rd)
  constructor
  · rcases htr with htr | htr <;> subst htr
    · exact hw
    · rw [show writeNames (Event.build ::
          (commitWrites env c'.graphiti en wr ca rd).trace) =
        writeNames (commitWrites env c'.graphiti en wr ca rd).trace from by
          simp [writeNames]]
      exact hw
  · intro ep
    exact retry_calls_pos _

/-- Witness for C4 on the happy path: five attempted artifacts, one write
attempt each, in the declared order. -/
theorem C4_deterministic_write_order_witness :
    writeNames [Event.build, Event.write "E - Academic Research" 0,
      Event.write "E - Industry Intelligence" 0, Event.write "E - Tool Analysis" 0,
      Event.write "E - Critical Analysis" 0, Event.write "E - Refinement Context" 0] =
      (attemptedNames "E" wrFull "crit" "ref").flatMap
        (fun ep => List.replicate (retryFor envAllOk true ep).calls ep) :=
  (C4_deterministic_write_order envAllOk freshClient "S" "E" "G" wrFull "crit" "ref"
    resFullSuccess { graphiti := true, indexes_built := true }
    [Event.build, Event.write "E - Academic Research" 0,
      Event.write "E - Industry Intelligence" 0, Event.write "E - Tool Analysis" 0,
      Event.write "E - Critical Analysis" 0, Event.write "E - Refinement Context" 0]
    rfl rfl).1

/-- C7: Index-build discipline: (1) after any commit that reaches the
write phase, the `_indexes_built` flag is set; (2) a commit on a live,
verified connection with the flag already set performs no index build;
(3) a successful reconnection resets the flag to `false`; (4) a commit that
reconnects (stale connection, successful reconnection) performs exactly one
index build and leaves the flag set. -/
theorem C7_index_build_once_per_connection :
    (∀ (env : Env) (c : GraphClient) (sn en gid : String)
        (wr : String → Option String) (ca rd : String) (r : CommitResult)
        (c' : GraphClient) (tr : List Event),
      commit_research_episode env c sn en gid wr ca rd = (Except.ok r, c', tr) →
      r.errors.isSome → c'.indexes_built = true) ∧
    (∀ (env : Env) (c : GraphClient) (sn en gid : String)
        (wr : String → Option String) (ca rd : String),
      c.graphiti = true → env.hasDriver = true → env.verifyOk = true →
      c.indexes_built = true →
      (commit_research_episode env c sn en gid wr ca rd).2.2.count Event.build = 0) ∧
    (∀ (env : Env) (c : GraphClient),
      env.reconnectOk = true → (reconnect env c).indexes_built = false) ∧
    (∀ (env : Env) (c : GraphClient) (sn en gid : String)
        (wr : String → Option String) (ca rd : String),
      c.graphiti = true → env.verifyOk = false → env.reconnectOk = true →
      env.buildOutcome = Except.ok () →
      (commit_research_episode env c sn en gid wr ca rd).2.2.count Event.build = 1 ∧
      (commit_research_episode env c sn en gid wr ca rd).2.1.indexes_built = true) := by
  refine ⟨?_, ?_, ?_, ?_⟩
  · intro env c sn en gid wr ca rd r c' tr h hr
    exact commit_ok_indexes_built h hr
  · intro env c sn en gid wr ca rd hc hd hv hcib
    rw [commit_built_eq sn en gid wr ca rd hc hd hv hcib]
    exact List.count_eq_zero.2 (build_not_mem_commitWrites_trace env true en wr ca rd)
  · intro env c h
    unfold reconnect
    simp [h]
  · intro env c sn en gid wr ca rd hc hv hrc hb
    rw [commit_reconnect_eq sn en gid wr ca rd hc hv hrc hb]
    dsimp only
    refine ⟨?_, rfl⟩
    rw [List.count_cons]
    rw [List.count_eq_zero.2 (build_not_mem_commitWrites_trace env true en wr ca rd)]
    simp

/-- Witness for C7: a commit with the flag already set performs no build; a
commit over a stale-then-reconnected connection performs exactly one; a
successful reconnection clears the flag. -/
theorem C7_index_build_once_per_connection_witness :
    (commit_research_episode envAllOk { graphiti := true, indexes_built := true }
      "S" "E" "G" wrFull "crit" "ref").2.2.count Event.build = 0 ∧
    (commit_research_episode envStaleReconnectOk
      { graphiti := true, indexes_built := true }
      "S" "E" "G" wrFull "crit" "ref").2.2.count Event.build = 1 ∧
    (reconnect envStaleReconnectOk
      { graphiti := true, indexes_built := true }).indexes_built = false :=
  ⟨C7_index_build_once_per_connection.2.1 envAllOk
      { graphiti := true, indexes_built := true } "S" "E" "G" wrFull "crit" "ref"
      rfl rfl rfl rfl,
    (C7_index_build_once_per_connection.2.2.2 envStaleReconnectOk
      { graphiti := true, indexes_built := true } "S" "E" "G" wrFull "crit" "ref"
      rfl rfl rfl rfl).1,
    C7_index_build_once_per_connection.2.2.1 envStaleReconnectOk
      { graphiti := true, indexes_built := true } rfl⟩

end Helldiver
